import Mathlib

/-!
Verification development for the Connectly campaign-analysis application
(`src/app.py`).  The Python source is shallowly embedded: pandas
DataFrames become `DF` (a list of column names plus rows of association
lists from column name to optional value), pure helper functions become
Lean functions, and code that can raise a Python exception returns
`Except String`.  Numeric pandas/NumPy float arithmetic is modelled over
`ℚ`, with NaN/inf tracked explicitly by `PyFloat`.
-/

namespace Connectly

/-! ### String utilities (kernel-friendly, over `Char` lists) -/

/-- Does the first list occur as an initial segment of the second? -/
def listStarts : List Char → List Char → Bool
  | [], _ => true
  | _ :: _, [] => false
  | a :: as, b :: bs => a == b && listStarts as bs

/-- Does `n` occur as a contiguous sublist of the second argument? -/
def listHasSub (n : List Char) : List Char → Bool
  | [] => listStarts n []
  | c :: cs => listStarts n (c :: cs) || listHasSub n cs

/-- Substring test on strings; models Python's `in` operator on `str`. -/
def strHasSub (needle hay : String) : Bool :=
  listHasSub needle.data hay.data

/-- Lower-casing; models Python's `str.lower` for ASCII data. -/
def lowerStr (s : String) : String :=
  String.mk (s.data.map Char.toLower)

/-- Replace underscores by spaces; models `str.replace('_', ' ')`. -/
def underscoreToSpace (s : String) : String :=
  String.mk (s.data.map (fun c => if c = '_' then ' ' else c))

/-- Prefix test on strings; models Python's `str.startswith`. -/
def strStarts (p s : String) : Bool :=
  listStarts p.data s.data

/-- Are all characters decimal digits (and the string nonempty)? -/
def allDigits (s : String) : Bool :=
  !s.data.isEmpty && s.data.all Char.isDigit

/-! ### Country Resolver (`get_country_name`, src/app.py lines 25-47)

The `phonenumbers` and `pycountry` libraries are external; they are
modelled by finite tables restricted to the dialling prefixes and region
codes exercised here, faithful to the libraries' documented behaviour:
`phonenumbers.parse` raises `NumberParseException` on input that is not
`+` followed by 8-15 digits, `region_code_for_number` maps a dialling
prefix to an ISO alpha-2 region code (`"001"` for non-geographic numbers
such as international toll-free `+800`), and
`pycountry.countries.get(alpha_2=cc)` returns the country name for known
codes and `None` (no exception) for unknown ones, so the
`except AttributeError` special-cases branch of the source is not
reached. -/

/-- Dialling-prefix table modelling `phonenumbers.region_code_for_number`. -/
def phoneRegionTable : List (String × String) :=
  [("1", "US"), ("44", "GB"), ("966", "SA"), ("971", "AE"), ("800", "001")]

/-- Modelled from `phonenumbers.parse` plus `region_code_for_number`:
`none` stands both for a `NumberParseException` and for a parsed number
with no region code (either way the source returns `"Unknown"`). -/
def regionCodeOf (s : String) : Option String :=
  if !strStarts "+" s then none
  else
    let ds := s.drop 1
    if !allDigits ds then none
    else if ds.length < 8 || ds.length > 15 then none
    else (phoneRegionTable.find? (fun p => strStarts p.1 ds)).map (·.2)

/-- Region-code-to-name table modelling `pycountry.countries` alpha-2
lookup, restricted to the region codes produced by `phoneRegionTable`
(note: `"001"` has no entry, as in `pycountry`). -/
def pycountryAlpha2 : List (String × String) :=
  [("US", "United States"), ("GB", "United Kingdom"),
   ("SA", "Saudi Arabia"), ("AE", "United Arab Emirates")]

/-- Lookup in the standard table; models `pycountry.countries.get`. -/
def pycountryFind (cc : String) : Option String :=
  (pycountryAlpha2.find? (fun q => q.1 == cc)).map (·.2)

/-- The secondary special-cases table of the source (only consulted in
the `except AttributeError` branch). -/
def specialCases : List (String × String) :=
  [("KSA", "Saudi Arabia"), ("UAE", "United Arab Emirates")]

/-- Prepend `+` when missing, as the source does before parsing. -/
def normalizePhone (s : String) : String :=
  if strStarts "+" s then s else "+" ++ s

/-- Embedding of `get_country_name` (src/app.py lines 25-47).  The
`if country_code:` truthiness test becomes a non-empty-string test; the
`country.name if country else country_code` expression returns the raw
region code when the standard table has no entry. -/
def get_country_name (phoneNumber : String) : String :=
  let p := normalizePhone phoneNumber
  match regionCodeOf p with
  | some cc =>
    if cc ≠ "" then
      match pycountryFind cc with
      | some nm => nm
      | none => cc
    else "Unknown"
  | none => "Unknown"

/-! ### NumPy/pandas float values, in exact hundredths

Every float produced by the embedded fragments (delivery/read rates
rounded to two decimals, costs that are multiples of $0.04) is an exact
multiple of 1/100, so finite values are carried as a natural number of
hundredths.  NaN and inf — produced by pandas integer-division by zero —
are explicit constructors. -/

inductive PyFloat where
  | nan : PyFloat
  | inf : PyFloat
  | val : Nat → PyFloat
deriving DecidableEq, Repr

/-- Round `num / den` to the nearest integer, ties to even (the IEEE-754
rounding used by `numpy.round`); `den` is assumed positive. -/
def roundHalfEvenDiv (num den : Nat) : Nat :=
  let q := num / den
  let r := num % den
  if 2 * r < den then q
  else if den < 2 * r then q + 1
  else if q % 2 = 0 then q else q + 1

/-- The float `num / den * 100` rounded to 2 decimals, as computed by
`(delivered / dispatched * 100).round(2)` on pandas integer-count
columns: division by zero yields NaN (0/0) or inf (positive/0) rather
than raising; otherwise the value in hundredths of a percent. -/
def ratePct (num den : Nat) : PyFloat :=
  if den = 0 then (if num = 0 then .nan else .inf)
  else .val (roundHalfEvenDiv (num * 10000) den)

/-- Two-digit zero-padded fractional part. -/
def padHundredths (f : Nat) : String :=
  if f < 10 then "0" ++ toString f else toString f

/-- Python `repr` of the float `k / 100` (shortest decimal form, with at
least one fractional digit, as Python prints floats). -/
def reprHundredths (k : Nat) : String :=
  let w := k / 100
  let f := k % 100
  if f = 0 then toString w ++ ".0"
  else if f % 10 = 0 then toString w ++ "." ++ toString (f / 10)
  else toString w ++ "." ++ padHundredths f

/-- Python string interpolation `f"{x}"` of a nonnegative float. -/
def pyFloatStr : PyFloat → String
  | .nan => "nan"
  | .inf => "inf"
  | .val k => reprHundredths k

/-- Formatting `f"${x:.2f}"` of an exact amount of `cents` hundredths of
a dollar, as in the cost table. -/
def fmtDollar (cents : Nat) : String :=
  "$" ++ toString (cents / 100) ++ "." ++ padHundredths (cents % 100)

/-! ### DataFrames

A DataFrame is a list of column names plus rows; each row is an
association list from column name to an optional value (`none` models
NaN/NaT).  Dates are carried as `Val.vdate` with the calendar date
encoded as `y * 10000 + m * 100 + d`, so `≤` on the encoding is calendar
order.  Cell order inside a row is not observable (lookups go through
`rowGet`), so column assignment may cons the updated cell in front. -/

inductive Val where
  | vstr : String → Val
  | vdate : Nat → Val
deriving DecidableEq, Repr

abbrev Cell := Option Val

abbrev Row := List (String × Cell)

structure DF where
  cols : List String
  rows : List Row
deriving DecidableEq, Repr

/-- Look a column's value up in a row; `none` for an absent column or a
null cell (a pandas NaN). -/
def rowGet (r : Row) (c : String) : Cell :=
  match r.find? (fun p => p.1 == c) with
  | some p => p.2
  | none => none

/-- Set one cell of a row; models assignment into a DataFrame column at
a fixed row.  Observationally (via `rowGet`) this overwrites the column. -/
def setCell (r : Row) (c : String) (v : Cell) : Row :=
  (c, v) :: r.filter (fun p => !(p.1 == c))

/-- Column assignment `df[c] = df.apply(f)`: appends the column name if
new and rewrites every row's cell with `f` of that row. -/
def setColumn (df : DF) (c : String) (f : Row → Cell) : DF :=
  { cols := if c ∈ df.cols then df.cols else df.cols ++ [c],
    rows := df.rows.map (fun r => setCell r c (f r)) }

/-- Rename a column everywhere it occurs (names and row keys); models
`df.rename(columns={old: new})`. -/
def renameCol (old new : String) (df : DF) : DF :=
  { cols := df.cols.map (fun c => if c = old then new else c),
    rows := df.rows.map (fun r =>
      r.map (fun p => if p.1 = old then (new, p.2) else p)) }

/-- Python `str()` of a cell: NaN prints as `"nan"`; date cells never
occur where the source applies `str` (comment in src/app.py lines
221, 230). -/
def pyStr (c : Cell) : String :=
  match c with
  | some (.vstr s) => s
  | some (.vdate d) => toString d
  | none => "nan"

/-! ### Upload processing (`process_uploaded_file`, src/app.py lines 180-237)

Base64 transport decoding and CSV text parsing are external to the core
(the spec treats the upload transport as a collaborator); the embedding
starts from the parsed tabular data.  Python exceptions become
`Except.error` with a message; pandas raises `KeyError` when code
subscripts a missing column. -/

def keyErrorMsg (c : String) : String := "KeyError: " ++ c

/-- Message of the pandas error raised by `groupby(...).agg` when
aggregation columns are absent; it names every missing column. -/
def missingColsMsg (l : List String) : String :=
  "Column(s) [" ++ String.intercalate ", " l ++ "] do not exist"

/-- The alias rename table of the source (a Python dict, iterated in
insertion order). -/
def columnMapping : List (String × String) :=
  [("Button Clicks", "button_clicks"), ("Delivered", "delivered"),
   ("Link Clicks", "link_clicks"), ("Read", "read_at"),
   ("Sent", "sent_at"), ("Campaign Name", "campaign_name"),
   ("campaign", "campaign_name"), ("Campaign", "campaign_name")]

/-- Apply each alias rename, only when the old column is present. -/
def applyColumnMapping (df : DF) : DF :=
  columnMapping.foldl
    (fun d pq => if pq.1 ∈ d.cols then renameCol pq.1 pq.2 d else d) df

/-- First column whose lower-cased name contains `"campaign"`. -/
def findCampaignCol (df : DF) : Option String :=
  df.cols.find? (fun c => strHasSub "campaign" (lowerStr c))

/-- Schema normalization: alias renames, then resolution of a
campaign-name-bearing column, failing (the `raise ValueError` of the
source) when none exists. -/
def normalizeSchema (df : DF) : Except String DF :=
  let d1 := applyColumnMapping df
  if "campaign_name" ∈ d1.cols then .ok d1
  else
    match findCampaignCol d1 with
    | some c => .ok (renameCol c "campaign_name" d1)
    | none => .error "Could not find campaign name column in the CSV file"

/-- The commercial keyword list of the source. -/
def commercialKeywords : List String :=
  ["cpc", "dt", "gem", "top up", "top_up", "topup", "automation"]

/-- Embedding of `is_commercial_campaign`: lower-case, replace
underscores by spaces, test keyword containment. -/
def is_commercial_campaign (campaignName : String) : Bool :=
  let name := lowerStr campaignName
  commercialKeywords.any (fun k => strHasSub k (underscoreToSpace name))

/-- The per-row campaign-type derivation applied by the source. -/
def campaignTypeCell (r : Row) : Cell :=
  some (.vstr (if is_commercial_campaign (pyStr (rowGet r "campaign_name"))
               then "Commercial" else "Non-Commercial"))

/-- Column assignment `df['campaign_type'] = ...`. -/
def addCampaignType (df : DF) : DF :=
  setColumn df "campaign_type" campaignTypeCell

/-- The per-row country derivation `astype(str).apply(get_country_name)`. -/
def countryNameCell (r : Row) : Cell :=
  some (.vstr (get_country_name (pyStr (rowGet r "customer_external_id"))))

/-- Column assignment `df['country_name'] = ...`. -/
def addCountryName (df : DF) : DF :=
  setColumn df "country_name" countryNameCell

/-- The `fillna('Unknown')` pass over the country column (a no-op in
practice, since `get_country_name` always returns a string). -/
def fillnaCountry (df : DF) : DF :=
  setColumn df "country_name" (fun r =>
    match rowGet r "country_name" with
    | none => some (.vstr "Unknown")
    | some v => some v)

/-- Split a character list at `'-'` separators. -/
def splitDashAux : List Char → List Char → List (List Char)
  | [], acc => [acc.reverse]
  | c :: cs, acc =>
    if c = '-' then acc.reverse :: splitDashAux cs []
    else splitDashAux cs (c :: acc)

/-- Numeric value of a digit list. -/
def digitsVal (l : List Char) : Nat :=
  l.foldl (fun acc c => acc * 10 + (c.toNat - 48)) 0

/-- Are all characters decimal digits (and the list nonempty)? -/
def allDigitsL (l : List Char) : Bool :=
  !l.isEmpty && l.all Char.isDigit

/-- Modelled from `pd.to_datetime(..., errors='coerce')` restricted to
ISO `YYYY-MM-DD` date strings (the format of the export): success yields
the encoded calendar date, anything else coerces to NaT (`none`). -/
def parseDateStr (s : String) : Option Nat :=
  match splitDashAux s.data [] with
  | [y, m, d] =>
    if allDigitsL y && allDigitsL m && allDigitsL d then
      let mn := digitsVal m
      let dn := digitsVal d
      if 1 ≤ mn && mn ≤ 12 && 1 ≤ dn && dn ≤ 31 then
        some (digitsVal y * 10000 + mn * 100 + dn)
      else none
    else none
  | _ => none

/-- Date coercion of a cell, generalising `pd.to_datetime` to cells that
already hold dates. -/
def parseDateVal (c : Cell) : Option Nat :=
  match c with
  | some (.vstr s) => parseDateStr s
  | some (.vdate d) => some d
  | none => none

/-- The per-row dispatched-at conversion. -/
def dispatchedCell (r : Row) : Cell :=
  (parseDateVal (rowGet r "dispatched_at")).map Val.vdate

/-- Column conversion `df['dispatched_at'] = pd.to_datetime(...)`. -/
def parseDispatched (df : DF) : DF :=
  setColumn df "dispatched_at" dispatchedCell

/-- Row drop `df.dropna(subset=['dispatched_at'])`: keeps, in order,
exactly the rows whose dispatched date parsed. -/
def dropNaDispatched (df : DF) : DF :=
  { cols := df.cols,
    rows := df.rows.filter (fun r => (rowGet r "dispatched_at").isSome) }

/-- The campaign-type assignment acting on one row. -/
def typeStep (r : Row) : Row := setCell r "campaign_type" (campaignTypeCell r)

/-- The country-name assignment acting on one row. -/
def countryStep (r : Row) : Row := setCell r "country_name" (countryNameCell r)

/-- The country `fillna` acting on one row. -/
def fillnaStep (r : Row) : Row :=
  setCell r "country_name"
    (match rowGet r "country_name" with
     | none => some (.vstr "Unknown")
     | some v => some v)

/-- The dispatched-at conversion acting on one row. -/
def dateStep (r : Row) : Row := setCell r "dispatched_at" (dispatchedCell r)

/-- The whole enrichment applied to a single row (column assignments are
row-wise maps, so their composition acts per row). -/
def enrichRow (r : Row) : Row :=
  dateStep (fillnaStep (countryStep (typeStep r)))

/-- Embedding of `process_uploaded_file` (src/app.py lines 180-237),
from the parsed CSV table: schema normalization (abort on failure), the
campaign-type and country-name derivations, date parsing, and the drop
of unparseable rows.  Subscripting a missing `customer_external_id` or
`dispatched_at` column raises a `KeyError`, surfaced as `.error`. -/
def process_uploaded_file (df : DF) : Except String DF :=
  (normalizeSchema df).bind fun d1 =>
    let d2 := addCampaignType d1
    if "customer_external_id" ∈ d2.cols then
      let d3 := fillnaCountry (addCountryName d2)
      if "dispatched_at" ∈ d3.cols then
        .ok (dropNaDispatched (parseDispatched d3))
      else .error (keyErrorMsg "dispatched_at")
    else .error (keyErrorMsg "customer_external_id")

/-! ### Grouping and sorting -/

/-- Insertion step of a stable insertion sort. -/
def insertLe {α : Type} (le : α → α → Bool) (x : α) : List α → List α
  | [] => [x]
  | y :: ys => if le x y then x :: y :: ys else y :: insertLe le x ys

/-- Insertion sort by a boolean comparison.  Used to model the orderings
pandas applies (ascending key order in `groupby`, the `sort_values`
call); where ties exist the source's NumPy quicksort leaves their order
unspecified, and this model fixes one arbitrary choice. -/
def sortLe {α : Type} (le : α → α → Bool) : List α → List α
  | [] => []
  | x :: xs => insertLe le x (sortLe le xs)

/-- Lexicographic comparison on character lists. -/
def listCharLe : List Char → List Char → Bool
  | [], _ => true
  | _ :: _, [] => false
  | a :: as, b :: bs => if a < b then true else if b < a then false else listCharLe as bs

/-- Ordering on cell values, for sorted group keys. -/
def valLe : Val → Val → Bool
  | .vstr a, .vstr b => listCharLe a.data b.data
  | .vdate a, .vdate b => decide (a ≤ b)
  | .vstr _, .vdate _ => true
  | .vdate _, .vstr _ => false

/-- Deduplication keeping first occurrences. -/
def dedupAux {α : Type} [DecidableEq α] (seen : List α) : List α → List α
  | [] => []
  | x :: xs => if x ∈ seen then dedupAux seen xs else x :: dedupAux (x :: seen) xs

/-- Deduplication keeping first occurrences. -/
def dedupKeep {α : Type} [DecidableEq α] (l : List α) : List α :=
  dedupAux [] l

/-- The non-null values of one column, in row order. -/
def colVals (rows : List Row) (c : String) : List Val :=
  rows.filterMap (fun r => rowGet r c)

/-- The group keys of `groupby(c)`: distinct non-null values of the key
column, sorted ascending (pandas `groupby` sorts keys and drops null
keys). -/
def groupKeys (rows : List Row) (c : String) : List Val :=
  sortLe valLe (dedupKeep (colVals rows c))

/-- The rows of one group, in original order. -/
def groupOf (rows : List Row) (c : String) (k : Val) : List Row :=
  rows.filter (fun r => rowGet r c == some k)

/-- Count aggregation: the number of non-null cells of a column, which
is what `.agg('count')` computes (counts, never sums). -/
def countNonNull (rows : List Row) (c : String) : Nat :=
  (rows.filter (fun r => (rowGet r c).isSome)).length

/-! ### Campaign Summary view (`create_summary_table`, lines 332-366) -/

structure SummaryRow where
  campaign_name : Val
  dispatched : Nat
  sent : Nat
  delivered : Nat
  readCount : Nat
  buttonClicks : Nat
  linkClicks : Nat
deriving DecidableEq, Repr

/-- The aggregation columns of the campaign summary. -/
def summaryAggCols : List String :=
  ["dispatched_at", "sent_at", "delivered_at", "read_at",
   "button_clicks", "link_clicks"]

/-- One summary group row. -/
def mkSummaryRow (rows : List Row) (k : Val) : SummaryRow :=
  let g := groupOf rows "campaign_name" k
  { campaign_name := k,
    dispatched := countNonNull g "dispatched_at",
    sent := countNonNull g "sent_at",
    delivered := countNonNull g "delivered_at",
    readCount := countNonNull g "read_at",
    buttonClicks := countNonNull g "button_clicks",
    linkClicks := countNonNull g "link_clicks" }

/-- The grouped summary rows (one per distinct campaign name). -/
def summaryRowsOf (rows : List Row) : List SummaryRow :=
  (groupKeys rows "campaign_name").map (mkSummaryRow rows)

/-- Embedding of `create_summary_table`: the function performs no
column check, so `groupby`/`agg` raise when the key or an aggregation
column is absent (surfaced as `.error`, the uncaught pandas exception). -/
def create_summary_table (df : DF) : Except String (List SummaryRow) :=
  if "campaign_name" ∈ df.cols then
    let missing := summaryAggCols.filter (fun c => !df.cols.contains c)
    if missing = [] then .ok (summaryRowsOf df.rows)
    else .error (missingColsMsg missing)
  else .error (keyErrorMsg "campaign_name")

/-! ### Cost Analysis view (`create_cost_analysis_table`, lines 368-417) -/

/-- A cost row before string formatting, the numeric intermediate of the
source (`cost_df` prior to the `f"${x:.2f}"` pass); the cost is held in
exact hundredths of a dollar (`count * 0.04` is exactly `4 * count`
cents). -/
structure CostRowN where
  campaign_name : Val
  deliveredMessages : Nat
  costCents : Nat
deriving DecidableEq, Repr

/-- One numeric cost group row for a Non-Commercial campaign. -/
def mkCostRow (rows : List Row) (k : Val) : CostRowN :=
  let c := countNonNull (groupOf rows "campaign_name" k) "delivered_at"
  { campaign_name := k, deliveredMessages := c, costCents := c * 4 }

/-- The numeric cost table: Non-Commercial records only, grouped by
campaign name, plus the final synthetic `Total` row whose fields are the
sums of the per-group numeric values (never of formatted strings). -/
def costNumericRows (df : DF) : Except String (List CostRowN) :=
  if "campaign_type" ∈ df.cols then
    let nc := df.rows.filter
      (fun r => rowGet r "campaign_type" == some (.vstr "Non-Commercial"))
    if "campaign_name" ∈ df.cols then
      if "delivered_at" ∈ df.cols then
        let groups := (groupKeys nc "campaign_name").map (mkCostRow nc)
        .ok (groups ++
          [{ campaign_name := .vstr "Total",
             deliveredMessages := (groups.map (·.deliveredMessages)).sum,
             costCents := (groups.map (·.costCents)).sum }])
      else .error (missingColsMsg ["delivered_at"])
    else .error (keyErrorMsg "campaign_name")
  else .error (keyErrorMsg "campaign_type")

/-- A displayed cost row, after the `f"${x:.2f}"` formatting pass. -/
structure CostRow where
  campaign_name : Val
  deliveredMessages : Nat
  cost : String
deriving DecidableEq, Repr

/-- Embedding of `create_cost_analysis_table`: the numeric table with
the cost column formatted (formatting happens after the totals row is
built). -/
def create_cost_analysis_table (df : DF) : Except String (List CostRow) :=
  (costNumericRows df).map (List.map (fun r =>
    { campaign_name := r.campaign_name,
      deliveredMessages := r.deliveredMessages,
      cost := fmtDollar r.costCents }))

/-! ### Country Analysis view (`create_country_analysis_table`,
lines 419-467) -/

structure CountryRow where
  country : Val
  dispatched : Nat
  delivered : Nat
  readCount : Nat
  buttonClicks : Nat
  linkClicks : Nat
  deliveryRate : String
  readRate : String
deriving DecidableEq, Repr

/-- The aggregation columns of the country analysis. -/
def countryAggCols : List String :=
  ["dispatched_at", "delivered_at", "read_at", "button_clicks", "link_clicks"]

/-- One country group row, with the two rate cells
`f"{(num / den * 100).round(2)}%"` built from the same counts the row
displays. -/
def mkCountryRow (rows : List Row) (k : Val) : CountryRow :=
  let g := groupOf rows "country_name" k
  let disp := countNonNull g "dispatched_at"
  let del := countNonNull g "delivered_at"
  let rd := countNonNull g "read_at"
  { country := k,
    dispatched := disp,
    delivered := del,
    readCount := rd,
    buttonClicks := countNonNull g "button_clicks",
    linkClicks := countNonNull g "link_clicks",
    deliveryRate := pyFloatStr (ratePct del disp) ++ "%",
    readRate := pyFloatStr (ratePct rd del) ++ "%" }

/-- Descending comparison on the Dispatched count, for
`sort_values('Dispatched', ascending=False)`. -/
def dispatchedDesc (a b : CountryRow) : Bool :=
  decide (b.dispatched ≤ a.dispatched)

/-- Embedding of `create_country_analysis_table`: group by country,
aggregate counts, compute the two rate cells, sort by Dispatched
descending.  No column check exists in the source, so `groupby`/`agg`
raise on absent columns. -/
def create_country_analysis_table (df : DF) : Except String (List CountryRow) :=
  if "country_name" ∈ df.cols then
    let missing := countryAggCols.filter (fun c => !df.cols.contains c)
    if missing = [] then
      .ok (sortLe dispatchedDesc
        ((groupKeys df.rows "country_name").map (mkCountryRow df.rows)))
    else .error (missingColsMsg missing)
  else .error (keyErrorMsg "country_name")

/-! ### Filter Engine (`apply_filters`, lines 469-482) -/

/-- The country-filter stage: skipped for an absent or empty selection
(`if filter_country and len(filter_country) > 0`); with a non-empty
selection, subscripting `country_name` raises a `KeyError` when the
column is absent, and otherwise keeps rows whose country is selected
(a null country never matches `isin`). -/
def filterCountryStage (df : DF) (fc : Option (List String)) : Except String DF :=
  match fc with
  | none => .ok df
  | some l =>
    if l = [] then .ok df
    else if "country_name" ∈ df.cols then
      .ok { cols := df.cols,
            rows := df.rows.filter (fun r =>
              l.any (fun c => rowGet r "country_name" == some (.vstr c))) }
    else .error (keyErrorMsg "country_name")

/-- The campaign-type-filter stage, symmetric to the country stage. -/
def filterTypeStage (df : DF) (ft : Option (List String)) : Except String DF :=
  match ft with
  | none => .ok df
  | some l =>
    if l = [] then .ok df
    else if "campaign_type" ∈ df.cols then
      .ok { cols := df.cols,
            rows := df.rows.filter (fun r =>
              l.any (fun c => rowGet r "campaign_type" == some (.vstr c))) }
    else .error (keyErrorMsg "campaign_type")

/-- Row test of the date-range stage: calendar-date comparison,
inclusive on both ends; rows with a null dispatched date fail
(`NaT` comparisons are false in pandas). -/
def dateInRange (s e : Nat) (r : Row) : Bool :=
  match rowGet r "dispatched_at" with
  | some (.vdate n) => decide (s ≤ n) && decide (n ≤ e)
  | _ => false

/-- The date-range stage: applied only when both bounds are present
(`if start_date and end_date`), in which case subscripting
`dispatched_at` raises when absent. -/
def filterDateStage (df : DF) (sd ed : Option Nat) : Except String DF :=
  match sd, ed with
  | some s, some e =>
    if "dispatched_at" ∈ df.cols then
      .ok { cols := df.cols, rows := df.rows.filter (dateInRange s e) }
    else .error (keyErrorMsg "dispatched_at")
  | _, _ => .ok df

/-- Embedding of `apply_filters`: the three stages applied in sequence
to a copy of the dataset (the source is never mutated; the embedding is
pure).  The date bounds arrive from the date-picker collaborator as
calendar dates, here already in encoded form (the source's
`pd.to_datetime(start_date).date()` coercion of the picker's ISO
string). -/
def apply_filters (df : DF) (fc ft : Option (List String))
    (sd ed : Option Nat) : Except String DF :=
  (filterCountryStage df fc).bind fun d1 =>
    (filterTypeStage d1 ft).bind fun d2 =>
      filterDateStage d2 sd ed

/-! ### The callback `update_content` (lines 256-309)

The embedded portion covers the three branches that manipulate core
state and data: the upload branch, the tab-change branch and the
filter-request branch.  `dash.no_update` outputs and styling are UI
concerns; the content output is modelled by `Content`, and an
uncaught exception escaping the callback by `Except.error`. -/

inductive Content where
  | rawTable : DF → Content
  | summaryTable : List SummaryRow → Content
  | costTable : List CostRow → Content
  | countryTable : List CountryRow → Content
  | message : String → Content
deriving DecidableEq, Repr

/-- Raw-view passthrough (`create_data_table` renders all records and
columns unmodified). -/
def create_data_table (df : DF) : DF := df

/-- The upload branch (lines 266-281): on success the processed frame
replaces the dataset slot and the raw table is shown; on any exception
the previous slot is kept and an error message is shown. -/
def uploadBranch (data : Option DF) (raw : DF) : Option DF × Content :=
  match process_uploaded_file raw with
  | .ok d => (some d, .rawTable (create_data_table d))
  | .error e => (data, .message ("Error: " ++ e))

/-- The tab-change branch (lines 284-295): with no dataset a
"no data" message; otherwise the view of the active tab over the stored
dataset, with no exception handling around the view builders. -/
def updateOnTab (data : Option DF) (tab : String) : Except String Content :=
  match data with
  | none => .ok (.message "No data available.")
  | some d =>
    if tab = "data-table-tab" then .ok (.rawTable (create_data_table d))
    else if tab = "campaign-summary-tab" then
      (create_summary_table d).map .summaryTable
    else if tab = "cost-analysis-tab" then
      (create_cost_analysis_table d).map .costTable
    else (create_country_analysis_table d).map .countryTable

/-- The filter-request branch (lines 298-307): with no dataset nothing
updates (`none`); otherwise the filters are applied and the data-table
tab shows the raw table while every other tab shows the campaign
summary. -/
def updateOnFilterRequest (data : Option DF) (tab : String)
    (fc ft : Option (List String)) (sd ed : Option Nat) :
    Except String (Option Content) :=
  match data with
  | none => .ok none
  | some d =>
    (apply_filters d fc ft sd ed).bind fun fd =>
      if tab = "data-table-tab" then
        .ok (some (.rawTable (create_data_table fd)))
      else (create_summary_table fd).map fun rs => some (.summaryTable rs)

/-- The required-columns list of the legacy handler
`handle_upload_and_tabs` (lines 589-592), which is not registered as a
callback. -/
def legacyRequiredCols : List String :=
  ["campaign_name", "dispatched_at", "sent_at", "delivered_at",
   "read_at", "button_clicks", "link_clicks"]

/-- The campaign-summary branch of the legacy handler (lines 588-635):
unlike the live path it checks the required columns first and reports
the missing ones as a user-visible message. -/
def legacySummaryContent (df : DF) : Content :=
  let missing := legacyRequiredCols.filter (fun c => !df.cols.contains c)
  if missing = [] then .summaryTable (summaryRowsOf df.rows)
  else .message ("Missing columns: " ++ String.intercalate ", " missing)

/-! ### Helper lemmas -/

theorem rowGet_setCell_self (r : Row) (c : String) (v : Cell) :
    rowGet (setCell r c v) c = v := by
  unfold rowGet setCell
  rw [List.find?_cons_of_pos _ (by simp)]

theorem find?_filter_of_ne (r : Row) (c c' : String) (h : c' ≠ c) :
    List.find? (fun p => p.1 == c') (r.filter (fun p => !(p.1 == c))) =
      List.find? (fun p => p.1 == c') r := by
  induction r with
  | nil => rfl
  | cons a as ih =>
    by_cases hk : a.1 = c
    · have h1 : (a.1 == c) = true := by simp [hk]
      have h2 : (a.1 == c') = false := by simp [hk]; exact fun hh => h hh.symm
      simp [List.filter_cons, h1, List.find?_cons, h2, ih]
    · have h1 : (a.1 == c) = false := by simp [hk]
      by_cases hk' : a.1 = c'
      · have h2 : (a.1 == c') = true := by simp [hk']
        simp [List.filter_cons, h1, List.find?_cons, h2]
      · have h2 : (a.1 == c') = false := by simp [hk']
        simp [List.filter_cons, h1, List.find?_cons, h2, ih]

theorem rowGet_setCell_other (r : Row) (c c' : String) (v : Cell)
    (h : c' ≠ c) : rowGet (setCell r c v) c' = rowGet r c' := by
  unfold rowGet setCell
  rw [List.find?_cons_of_neg _ (by simp; exact fun hh => h hh.symm),
    find?_filter_of_ne r c c' h]

theorem insertLe_perm {α : Type} (le : α → α → Bool) (x : α) (l : List α) :
    (insertLe le x l).Perm (x :: l) := by
  induction l with
  | nil => rfl
  | cons y ys ih =>
    unfold insertLe
    by_cases hle : le x y
    · simp [hle]
    · simp only [hle, if_false]
      exact ((ih.cons y).trans (List.Perm.swap x y ys))

theorem sortLe_perm {α : Type} (le : α → α → Bool) (l : List α) :
    (sortLe le l).Perm l := by
  induction l with
  | nil => rfl
  | cons x xs ih => exact (insertLe_perm le x (sortLe le xs)).trans (ih.cons x)

theorem mem_sortLe {α : Type} {le : α → α → Bool} {l : List α} {a : α} :
    a ∈ sortLe le l ↔ a ∈ l :=
  (sortLe_perm le l).mem_iff

/-- Helper: a default frame for extracting the payload of a computed
`Except` value inside witnesses. -/
def okOr (x : Except String DF) : DF :=
  match x with
  | .ok d => d
  | .error _ => { cols := [], rows := [] }

/-- C2: In the Cost Analysis view (over Non-Commercial records grouped
by campaign name), the final synthetic row is named "Total" and its
Cost (USD) value numerically equals 0.04 × the sum of the delivered
counts of the non-Total rows, computed on the numeric intermediate
(cents) before any string formatting; the formatted table is obtained
from that numeric intermediate by formatting alone. -/
theorem cost_total_row_correct (df : DF) (rows : List CostRowN)
    (h : costNumericRows df = .ok rows) :
    ∃ tr, rows.getLast? = some tr ∧
      tr.campaign_name = .vstr "Total" ∧
      tr.costCents = 4 * ((rows.dropLast).map (·.deliveredMessages)).sum ∧
      ((tr.costCents : ℚ) / 100) =
        (0.04 : ℚ) * (((rows.dropLast).map (·.deliveredMessages)).sum : ℚ) ∧
      create_cost_analysis_table df = .ok (rows.map (fun r =>
        { campaign_name := r.campaign_name,
          deliveredMessages := r.deliveredMessages,
          cost := fmtDollar r.costCents })) := by
  unfold costNumericRows at h
  by_cases h1 : "campaign_type" ∈ df.cols
  · simp only [h1, if_true] at h
    by_cases h2 : "campaign_name" ∈ df.cols
    · simp only [h2, if_true] at h
      by_cases h3 : "delivered_at" ∈ df.cols
      · simp only [h3, if_true, Except.ok.injEq] at h
        set nc := df.rows.filter
          (fun r => rowGet r "campaign_type" == some (.vstr "Non-Commercial")) with hnc
        set groups := (groupKeys nc "campaign_name").map (mkCostRow nc) with hg
        have hmap : groups.map (·.costCents) =
            (groupKeys nc "campaign_name").map
              (fun k => (mkCostRow nc k).deliveredMessages * 4) := by
          rw [hg, List.map_map]; rfl
        have hmap2 : groups.map (·.deliveredMessages) =
            (groupKeys nc "campaign_name").map
              (fun k => (mkCostRow nc k).deliveredMessages) := by
          rw [hg, List.map_map]; rfl
        have hcost : (groups.map (·.costCents)).sum =
            4 * (groups.map (·.deliveredMessages)).sum := by
          rw [hmap, List.sum_map_mul_right, ← hmap2, Nat.mul_comm]
        refine ⟨{ campaign_name := .vstr "Total",
                  deliveredMessages := (groups.map (·.deliveredMessages)).sum,
                  costCents := (groups.map (·.costCents)).sum }, ?_, rfl, ?_, ?_, ?_⟩
        · rw [← h]; exact List.getLast?_concat _
        · rw [← h, List.dropLast_concat]; exact hcost
        · rw [← h, List.dropLast_concat]
          have h4 : (List.map (fun x => (x.deliveredMessages : ℚ)) groups) =
              List.map Nat.cast (groups.map (·.deliveredMessages)) := by
            simp only [hg, List.map_map]; rfl
          show ((((groups.map (·.costCents)).sum : ℕ)) : ℚ) / 100 =
            (0.04 : ℚ) * (List.map (fun x => (x.deliveredMessages : ℚ)) groups).sum
          rw [hcost, h4, ← Nat.cast_list_sum]
          push_cast
          ring_nf
        · unfold create_cost_analysis_table costNumericRows
          simp only [h1, if_true, h2, h3, ← hnc, ← hg, ← h]
          rfl
      · simp [h3] at h
    · simp [h2] at h
  · simp [h1] at h

/-- Extractor for computed cost tables, used to state witnesses. -/
def okOrCost (x : Except String (List CostRowN)) : List CostRowN :=
  match x with
  | .ok l => l
  | .error _ => []

/-- A concrete enriched dataset exercising the cost analysis: two
Non-Commercial campaigns (one with a null delivered cell) and one
Commercial campaign. -/
def costDemoDF : DF :=
  { cols := ["campaign_name", "campaign_type", "delivered_at"],
    rows := [
      [("campaign_name", some (.vstr "Alpha")),
       ("campaign_type", some (.vstr "Non-Commercial")),
       ("delivered_at", some (.vstr "2024-01-01"))],
      [("campaign_name", some (.vstr "Beta")),
       ("campaign_type", some (.vstr "Non-Commercial")),
       ("delivered_at", some (.vstr "2024-01-02"))],
      [("campaign_name", some (.vstr "Alpha")),
       ("campaign_type", some (.vstr "Non-Commercial")),
       ("delivered_at", none)],
      [("campaign_name", some (.vstr "Gamma")),
       ("campaign_type", some (.vstr "Commercial")),
       ("delivered_at", some (.vstr "2024-01-03"))]] }

/-- Witness for C2 at `costDemoDF`. -/
theorem cost_total_row_correct_witness :
    ∃ tr, (okOrCost (costNumericRows costDemoDF)).getLast? = some tr ∧
      tr.campaign_name = .vstr "Total" ∧
      tr.costCents = 4 *
        (((okOrCost (costNumericRows costDemoDF)).dropLast).map
          (·.deliveredMessages)).sum ∧
      ((tr.costCents : ℚ) / 100) =
        (0.04 : ℚ) * ((((okOrCost (costNumericRows costDemoDF)).dropLast).map
          (·.deliveredMessages)).sum : ℚ) ∧
      create_cost_analysis_table costDemoDF =
        .ok ((okOrCost (costNumericRows costDemoDF)).map (fun r =>
          { campaign_name := r.campaign_name,
            deliveredMessages := r.deliveredMessages,
            cost := fmtDollar r.costCents })) :=
  cost_total_row_correct costDemoDF (okOrCost (costNumericRows costDemoDF))
    (by rfl)

/-- C3 counterexample: the international toll-free number
`"80012345678"` parses with region code `"001"`, which is mapped by
neither the standard table nor the special-cases table, yet
`get_country_name` returns `"001"` — the raw region code — and not
`"Unknown"` as the claim states. -/
theorem get_country_name_unmapped_counterexample :
    regionCodeOf (normalizePhone "80012345678") = some "001" ∧
    pycountryFind "001" = none ∧
    specialCases.find? (fun p => p.1 == "001") = none ∧
    get_country_name "80012345678" = "001" ∧
    "001" ≠ "Unknown" := by
  refine ⟨by decide, by decide, by decide, by decide, by decide⟩

/-- C3 (amended): `get_country_name` is total (never raises, always a
string, by construction); it returns `"Unknown"` exactly when parsing
fails or no region code is produced; for a parsed number it returns the
standard-table name when one exists, and otherwise falls back to the raw
region code itself — not `"Unknown"`. -/
theorem get_country_name_amended :
    (∀ s, regionCodeOf (normalizePhone s) = none →
      get_country_name s = "Unknown") ∧
    (∀ s cc nm, regionCodeOf (normalizePhone s) = some cc → cc ≠ "" →
      pycountryFind cc = some nm → get_country_name s = nm) ∧
    (∀ s cc, regionCodeOf (normalizePhone s) = some cc → cc ≠ "" →
      pycountryFind cc = none → get_country_name s = cc) := by
  refine ⟨?_, ?_, ?_⟩
  · intro s h
    simp only [get_country_name]
    rw [h]
  · intro s cc nm h hne hf
    simp only [get_country_name]
    rw [h]
    dsimp only
    rw [if_pos hne, hf]
  · intro s cc h hne hf
    simp only [get_country_name]
    rw [h]
    dsimp only
    rw [if_pos hne, hf]

/-- Witness for C3 (amended), applying every part at concrete inputs:
the malformed string `"hello"`, the United States number, and the
toll-free number with the unmapped `"001"` region. -/
theorem get_country_name_amended_witness :
    get_country_name "hello" = "Unknown" ∧
    get_country_name "+14155552671" = "United States" ∧
    get_country_name "80012345678" = "001" :=
  ⟨get_country_name_amended.1 "hello" (by decide),
   get_country_name_amended.2.1 "+14155552671" "US" "United States"
     (by decide) (by decide) (by decide),
   get_country_name_amended.2.2 "80012345678" "001" (by decide) (by decide)
     (by decide)⟩

/-- C4: when, after the alias renames, no `campaign_name` column and no
column containing `"campaign"` (case-insensitively) exists, the upload
fails with the fatal schema error; and on this or any other upload
failure the dataset slot is returned exactly as it was, with the error
surfaced as a user-visible message. -/
theorem upload_schema_error_preserves_state (df : DF) (st : Option DF) :
    (("campaign_name" ∉ (applyColumnMapping df).cols ∧
        findCampaignCol (applyColumnMapping df) = none) →
      process_uploaded_file df =
        .error "Could not find campaign name column in the CSV file") ∧
    (∀ e, process_uploaded_file df = .error e →
      uploadBranch st df = (st, .message ("Error: " ++ e))) := by
  constructor
  · rintro ⟨h1, h2⟩
    unfold process_uploaded_file normalizeSchema
    simp only [h1, if_false, h2]
    rfl
  · intro e he
    unfold uploadBranch
    rw [he]

/-- A raw upload with no campaign-bearing column at all. -/
def noCampaignDF : DF :=
  { cols := ["customer_external_id", "dispatched_at"],
    rows := [[("customer_external_id", some (.vstr "+14155552671")),
              ("dispatched_at", some (.vstr "2024-01-01"))]] }

/-- A stand-in for a previously stored dataset. -/
def priorDF : DF :=
  { cols := ["campaign_name"], rows := [[("campaign_name", some (.vstr "Old"))]] }

/-- Witness for C4: uploading `noCampaignDF` over a stored `priorDF`
fails with the schema error and leaves the slot holding `priorDF`. -/
theorem upload_schema_error_preserves_state_witness :
    process_uploaded_file noCampaignDF =
      .error "Could not find campaign name column in the CSV file" ∧
    uploadBranch (some priorDF) noCampaignDF =
      (some priorDF, .message
        ("Error: " ++ "Could not find campaign name column in the CSV file")) := by
  have h := upload_schema_error_preserves_state noCampaignDF (some priorDF)
  have h1 := h.1 ⟨by decide, by decide⟩
  exact ⟨h1, h.2 _ h1⟩

theorem process_ok_shape (df d : DF) (h : process_uploaded_file df = .ok d) :
    ∃ d1, normalizeSchema df = .ok d1 ∧
      d.rows = (d1.rows.map enrichRow).filter
        (fun r => (rowGet r "dispatched_at").isSome) := by
  unfold process_uploaded_file at h
  cases hn : normalizeSchema df with
  | error e => rw [hn] at h; exact absurd h (by simp [Except.bind])
  | ok d1 =>
    rw [hn] at h
    dsimp only [Except.bind] at h
    refine ⟨d1, rfl, ?_⟩
    split at h
    · split at h
      · cases h
        show List.filter (fun r => (rowGet r "dispatched_at").isSome)
            ((((d1.rows.map typeStep).map countryStep).map fillnaStep).map
              dateStep) = _
        simp only [List.map_map]
        rfl
      · cases h
    · cases h

theorem enrichRow_dispatched (r : Row) :
    rowGet (enrichRow r) "dispatched_at" =
      dispatchedCell (fillnaStep (countryStep (typeStep r))) := by
  unfold enrichRow dateStep
  exact rowGet_setCell_self _ _ _

theorem enrichRow_type (r : Row) :
    rowGet (enrichRow r) "campaign_type" = campaignTypeCell r := by
  unfold enrichRow dateStep fillnaStep countryStep typeStep
  rw [rowGet_setCell_other _ _ _ _ (by decide),
    rowGet_setCell_other _ _ _ _ (by decide),
    rowGet_setCell_other _ _ _ _ (by decide),
    rowGet_setCell_self]

theorem enrichRow_country (r : Row) :
    rowGet (enrichRow r) "country_name" =
      countryNameCell (typeStep r) := by
  unfold enrichRow dateStep fillnaStep
  rw [rowGet_setCell_other _ _ _ _ (by decide), rowGet_setCell_self]
  unfold countryStep
  rw [rowGet_setCell_self]
  unfold countryNameCell
  rfl

/-- C5: after a successful upload every retained record has a parsed
dispatched date, a campaign type that is `Commercial` or
`Non-Commercial`, and a (string) country name; the dataset's rows are
exactly the enriched input rows whose dispatched date parsed — rows that
fail to parse are dropped wholly, and the retained rows are a sublist
of the enriched input (same relative order). -/
theorem process_row_invariants (df d : DF)
    (h : process_uploaded_file df = .ok d) :
    (∀ r ∈ d.rows,
      (∃ n, rowGet r "dispatched_at" = some (.vdate n)) ∧
      (rowGet r "campaign_type" = some (.vstr "Commercial") ∨
       rowGet r "campaign_type" = some (.vstr "Non-Commercial")) ∧
      (∃ s, rowGet r "country_name" = some (.vstr s))) ∧
    (∃ d1, normalizeSchema df = .ok d1 ∧
      d.rows.Sublist (d1.rows.map enrichRow) ∧
      d.rows = (d1.rows.map enrichRow).filter
        (fun r => (rowGet r "dispatched_at").isSome)) := by
  obtain ⟨d1, hn, hrows⟩ := process_ok_shape df d h
  constructor
  · intro r hr
    rw [hrows] at hr
    have hpred := List.of_mem_filter hr
    have hmem := List.mem_of_mem_filter hr
    obtain ⟨r0, _, hr0⟩ := List.mem_map.mp hmem
    subst hr0
    refine ⟨?_, ?_, ?_⟩
    · rw [enrichRow_dispatched] at hpred ⊢
      unfold dispatchedCell at hpred ⊢
      cases ho : parseDateVal
          (rowGet (fillnaStep (countryStep (typeStep r0))) "dispatched_at") with
      | none => rw [ho] at hpred; exact absurd hpred (by simp)
      | some n => exact ⟨n, rfl⟩
    · rw [enrichRow_type]
      unfold campaignTypeCell
      by_cases hb : is_commercial_campaign (pyStr (rowGet r0 "campaign_name"))
      · left; rw [if_pos hb]
      · right; rw [if_neg hb]
    · rw [enrichRow_country]
      exact ⟨_, rfl⟩
  · exact ⟨d1, hn, by rw [hrows]; exact List.filter_sublist _, hrows⟩

/-- A raw upload exercising the drop of rows with unparseable dates:
the second row's `dispatched_at` is garbage. -/
def enrichDemoDF : DF :=
  { cols := ["campaign_name", "customer_external_id", "dispatched_at"],
    rows := [
      [("campaign_name", some (.vstr "Auto CPC Promo")),
       ("customer_external_id", some (.vstr "+14155552671")),
       ("dispatched_at", some (.vstr "2024-01-01"))],
      [("campaign_name", some (.vstr "Winter Sale")),
       ("customer_external_id", some (.vstr "+442071838750")),
       ("dispatched_at", some (.vstr "not-a-date"))]] }

/-- Witness for C5 at `enrichDemoDF`, instantiated at the first (and
only) retained row. -/
theorem process_row_invariants_witness :
    (∃ n, rowGet ((okOr (process_uploaded_file enrichDemoDF)).rows.headD [])
      "dispatched_at" = some (.vdate n)) ∧
    (rowGet ((okOr (process_uploaded_file enrichDemoDF)).rows.headD [])
      "campaign_type" = some (.vstr "Commercial") ∨
     rowGet ((okOr (process_uploaded_file enrichDemoDF)).rows.headD [])
      "campaign_type" = some (.vstr "Non-Commercial")) ∧
    (∃ s, rowGet ((okOr (process_uploaded_file enrichDemoDF)).rows.headD [])
      "country_name" = some (.vstr s)) := by
  have h := (process_row_invariants enrichDemoDF
    (okOr (process_uploaded_file enrichDemoDF)) (by rfl)).1
  refine h _ ?_
  rw [show (okOr (process_uploaded_file enrichDemoDF)).rows =
      [(okOr (process_uploaded_file enrichDemoDF)).rows.headD []] from by rfl]
  exact List.mem_singleton.mpr rfl

/-! ### Filter Engine claims.  `specPassCountry`, `specPassType` and
`specPassDate` are written from the spec's words ("absent/empty filter =
predicate always true for that dimension"), to be compared with the
staged implementation. -/

/-- Spec-side country predicate. -/
def specPassCountry (fc : Option (List String)) (r : Row) : Bool :=
  match fc with
  | none => true
  | some l =>
    if l = [] then true
    else l.any (fun c => rowGet r "country_name" == some (.vstr c))

/-- Spec-side campaign-type predicate. -/
def specPassType (ft : Option (List String)) (r : Row) : Bool :=
  match ft with
  | none => true
  | some l =>
    if l = [] then true
    else l.any (fun c => rowGet r "campaign_type" == some (.vstr c))

/-- Spec-side date predicate (always true unless both bounds given). -/
def specPassDate (sd ed : Option Nat) (r : Row) : Bool :=
  match sd, ed with
  | some s, some e => dateInRange s e r
  | _, _ => true

theorem filterCountryStage_eq (df : DF) (fc : Option (List String))
    (h : "country_name" ∈ df.cols) :
    filterCountryStage df fc =
      .ok { cols := df.cols, rows := df.rows.filter (specPassCountry fc) } := by
  unfold filterCountryStage specPassCountry
  match fc with
  | none => simp [List.filter_true]
  | some l =>
    match l with
    | [] => simp [List.filter_true]
    | a :: l' =>
      simp only [if_neg (show ¬(a :: l' = []) from by simp), if_pos h]

theorem filterTypeStage_eq (df : DF) (ft : Option (List String))
    (h : "campaign_type" ∈ df.cols) :
    filterTypeStage df ft =
      .ok { cols := df.cols, rows := df.rows.filter (specPassType ft) } := by
  unfold filterTypeStage specPassType
  match ft with
  | none => simp [List.filter_true]
  | some l =>
    match l with
    | [] => simp [List.filter_true]
    | a :: l' =>
      simp only [if_neg (show ¬(a :: l' = []) from by simp), if_pos h]

theorem filterDateStage_eq (df : DF) (sd ed : Option Nat)
    (h : "dispatched_at" ∈ df.cols) :
    filterDateStage df sd ed =
      .ok { cols := df.cols, rows := df.rows.filter (specPassDate sd ed) } := by
  unfold filterDateStage specPassDate
  match sd, ed with
  | some s, some e => simp only [h, if_true]
  | some s, none => simp [List.filter_true]
  | none, some e => simp [List.filter_true]
  | none, none => simp [List.filter_true]

theorem apply_filters_eq (df : DF) (fc ft : Option (List String))
    (sd ed : Option Nat) (h1 : "country_name" ∈ df.cols)
    (h2 : "campaign_type" ∈ df.cols) (h3 : "dispatched_at" ∈ df.cols) :
    apply_filters df fc ft sd ed =
      .ok { cols := df.cols,
            rows := df.rows.filter (fun r =>
              specPassCountry fc r && specPassType ft r &&
                specPassDate sd ed r) } := by
  unfold apply_filters
  rw [filterCountryStage_eq df fc h1]
  dsimp only [Except.bind]
  rw [filterTypeStage_eq
    { cols := df.cols, rows := df.rows.filter (specPassCountry fc) } ft h2]
  dsimp only [Except.bind]
  rw [filterDateStage_eq
    { cols := df.cols,
      rows := (df.rows.filter (specPassCountry fc)).filter (specPassType ft) }
    sd ed h3]
  rw [List.filter_filter, List.filter_filter]
  congr 1
  rw [DF.mk.injEq]
  refine ⟨rfl, ?_⟩
  apply List.filter_congr
  intro r _
  cases specPassCountry fc r <;> cases specPassType ft r <;>
    cases specPassDate sd ed r <;> rfl

/-- C6: over any dataset holding the three filter columns, the Filter
Engine returns exactly the rows satisfying all supplied predicates
(absent or empty filters are always-true), the result's rows form a
subsequence of the source rows which are left untouched, and applying
the country filter `{"Unknown"}` then the campaign-type filter
`{"Commercial"}` in sequence equals applying both in a single call. -/
theorem apply_filters_conjunctive (df : DF) (fc ft : Option (List String))
    (sd ed : Option Nat) (h1 : "country_name" ∈ df.cols)
    (h2 : "campaign_type" ∈ df.cols) (h3 : "dispatched_at" ∈ df.cols) :
    (apply_filters df fc ft sd ed =
      .ok { cols := df.cols,
            rows := df.rows.filter (fun r =>
              specPassCountry fc r && specPassType ft r &&
                specPassDate sd ed r) }) ∧
    (df.rows.filter (fun r =>
      specPassCountry fc r && specPassType ft r &&
        specPassDate sd ed r)).Sublist df.rows ∧
    ((apply_filters df (some ["Unknown"]) none none none).bind
        (fun d => apply_filters d none (some ["Commercial"]) none none) =
      apply_filters df (some ["Unknown"]) (some ["Commercial"]) none none) := by
  refine ⟨apply_filters_eq df fc ft sd ed h1 h2 h3, List.filter_sublist _, ?_⟩
  rw [apply_filters_eq df (some ["Unknown"]) none none none h1 h2 h3]
  dsimp only [Except.bind]
  rw [apply_filters_eq
    { cols := df.cols,
      rows := df.rows.filter (fun r =>
        specPassCountry (some ["Unknown"]) r && specPassType none r &&
          specPassDate none none r) } none (some ["Commercial"]) none none
    h1 h2 h3,
    apply_filters_eq df (some ["Unknown"]) (some ["Commercial"]) none none h1
      h2 h3]
  rw [List.filter_filter]
  congr 1
  rw [DF.mk.injEq]
  refine ⟨rfl, ?_⟩
  apply List.filter_congr
  intro r _
  show ((specPassCountry none r && specPassType (some ["Commercial"]) r &&
      specPassDate none none r) &&
    (specPassCountry (some ["Unknown"]) r && specPassType none r &&
      specPassDate none none r)) =
    (specPassCountry (some ["Unknown"]) r &&
      specPassType (some ["Commercial"]) r && specPassDate none none r)
  cases specPassCountry (some ["Unknown"]) r <;>
    cases specPassType (some ["Commercial"]) r <;> rfl

/-- A small enriched dataset for the filter witnesses. -/
def filterDemoDF : DF :=
  { cols := ["country_name", "campaign_type", "dispatched_at"],
    rows := [
      [("country_name", some (.vstr "Unknown")),
       ("campaign_type", some (.vstr "Commercial")),
       ("dispatched_at", some (.vdate 20240101))],
      [("country_name", some (.vstr "United States")),
       ("campaign_type", some (.vstr "Commercial")),
       ("dispatched_at", some (.vdate 20240102))],
      [("country_name", some (.vstr "Unknown")),
       ("campaign_type", some (.vstr "Non-Commercial")),
       ("dispatched_at", some (.vdate 20240103))]] }

/-- Witness for C6 at `filterDemoDF` with the claim's two filters. -/
theorem apply_filters_conjunctive_witness :
    (apply_filters filterDemoDF (some ["Unknown"]) (some ["Commercial"])
        none none =
      .ok { cols := filterDemoDF.cols,
            rows := filterDemoDF.rows.filter (fun r =>
              specPassCountry (some ["Unknown"]) r &&
                specPassType (some ["Commercial"]) r &&
                  specPassDate none none r) }) ∧
    (filterDemoDF.rows.filter (fun r =>
      specPassCountry (some ["Unknown"]) r &&
        specPassType (some ["Commercial"]) r &&
          specPassDate none none r)).Sublist filterDemoDF.rows ∧
    ((apply_filters filterDemoDF (some ["Unknown"]) none none none).bind
        (fun d => apply_filters d none (some ["Commercial"]) none none) =
      apply_filters filterDemoDF (some ["Unknown"]) (some ["Commercial"])
        none none) :=
  apply_filters_conjunctive filterDemoDF (some ["Unknown"])
    (some ["Commercial"]) none none (by decide) (by decide) (by decide)

/-- C10: when exactly one of the date bounds is supplied, the date
dimension filters nothing: the spec-side date predicate is identically
true and the whole call coincides with the call using no dates at all
(only the country and campaign-type predicates act). -/
theorem apply_filters_single_date_bound (df : DF)
    (fc ft : Option (List String)) (d : Nat) :
    apply_filters df fc ft (some d) none = apply_filters df fc ft none none ∧
    apply_filters df fc ft none (some d) = apply_filters df fc ft none none ∧
    (∀ r, specPassDate (some d) none r = true) ∧
    (∀ r, specPassDate none (some d) r = true) := by
  refine ⟨?_, ?_, fun r => rfl, fun r => rfl⟩ <;>
  · unfold apply_filters
    cases filterCountryStage df fc with
    | error e => rfl
    | ok d1 =>
      dsimp only [Except.bind]
      cases filterTypeStage d1 ft with
      | error e => rfl
      | ok d2 => rfl

/-! ### Country Analysis rate claims -/

theorem ratePct_pos_str (num den : Nat) (h : den ≠ 0) :
    pyFloatStr (ratePct num den) =
      reprHundredths (roundHalfEvenDiv (num * 10000) den) := by
  unfold ratePct
  rw [if_neg h]
  rfl

theorem ratePct_zero_str (num : Nat) :
    pyFloatStr (ratePct num 0) = (if num = 0 then "nan" else "inf") := by
  unfold ratePct
  rw [if_pos rfl]
  by_cases h : num = 0
  · rw [if_pos h, if_pos h]; rfl
  · rw [if_neg h, if_neg h]; rfl

/-- The per-row rate property of the amended C1: each emitted row's two
rate cells are the formatted `count / count × 100` values rounded to two
decimals with a trailing `%`, and a zero denominator does not raise but
produces `"nan%"` (0/0) or `"inf%"` (positive/0) — never `"0%"` or
`"N/A"`. -/
def countryRowSpec (row : CountryRow) : Prop :=
  row.deliveryRate = pyFloatStr (ratePct row.delivered row.dispatched) ++ "%" ∧
  row.readRate = pyFloatStr (ratePct row.readCount row.delivered) ++ "%" ∧
  (row.dispatched ≠ 0 → row.deliveryRate =
    reprHundredths (roundHalfEvenDiv (row.delivered * 10000) row.dispatched)
      ++ "%") ∧
  (row.delivered ≠ 0 → row.readRate =
    reprHundredths (roundHalfEvenDiv (row.readCount * 10000) row.delivered)
      ++ "%") ∧
  (row.dispatched = 0 → row.deliveryRate =
    (if row.delivered = 0 then "nan%" else "inf%")) ∧
  (row.delivered = 0 → row.readRate =
    (if row.readCount = 0 then "nan%" else "inf%"))

theorem mkCountryRow_spec (rows : List Row) (k : Val) :
    countryRowSpec (mkCountryRow rows k) := by
  refine ⟨rfl, rfl, ?_, ?_, ?_, ?_⟩
  · intro h
    show pyFloatStr (ratePct (mkCountryRow rows k).delivered
      (mkCountryRow rows k).dispatched) ++ "%" = _
    rw [ratePct_pos_str _ _ h]
  · intro h
    show pyFloatStr (ratePct (mkCountryRow rows k).readCount
      (mkCountryRow rows k).delivered) ++ "%" = _
    rw [ratePct_pos_str _ _ h]
  · intro h
    show pyFloatStr (ratePct (mkCountryRow rows k).delivered
      (mkCountryRow rows k).dispatched) ++ "%" = _
    rw [h, ratePct_zero_str]
    by_cases hz : (mkCountryRow rows k).delivered = 0
    · rw [if_pos hz, if_pos hz]; decide
    · rw [if_neg hz, if_neg hz]; decide
  · intro h
    show pyFloatStr (ratePct (mkCountryRow rows k).readCount
      (mkCountryRow rows k).delivered) ++ "%" = _
    rw [h, ratePct_zero_str]
    by_cases hz : (mkCountryRow rows k).readCount = 0
    · rw [if_pos hz, if_pos hz]; decide
    · rw [if_neg hz, if_neg hz]; decide

/-- C1 (amended): with the grouping and aggregation columns present, the
Country Analysis view is produced without raising, and every row of it
satisfies `countryRowSpec`: the documented rate formula with two-decimal
rounding and trailing `%` whenever the denominator is nonzero, and
`"nan%"`/`"inf%"` — not `"0%"` or `"N/A"` — on a zero denominator. -/
theorem country_rates_amended :
    (∀ df : DF, "country_name" ∈ df.cols →
      (∀ c ∈ countryAggCols, c ∈ df.cols) →
      ∃ t, create_country_analysis_table df = .ok t) ∧
    (∀ (df : DF) (t : List CountryRow),
      create_country_analysis_table df = .ok t →
      ∀ row ∈ t, countryRowSpec row) := by
  constructor
  · intro df h1 h2
    unfold create_country_analysis_table
    rw [if_pos h1]
    have hmiss : countryAggCols.filter (fun c => !df.cols.contains c) = [] := by
      rw [List.filter_eq_nil_iff]
      intro c hc
      simp [h2 c hc]
    rw [if_pos hmiss]
    exact ⟨_, rfl⟩
  · intro df t h row hrow
    unfold create_country_analysis_table at h
    by_cases h1 : "country_name" ∈ df.cols
    · rw [if_pos h1] at h
      by_cases h2 : countryAggCols.filter (fun c => !df.cols.contains c) = []
      · rw [if_pos h2] at h
        cases h
        obtain ⟨k, _, hk⟩ := List.mem_map.mp (mem_sortLe.mp hrow)
        rw [← hk]
        exact mkCountryRow_spec df.rows k
      · rw [if_neg h2] at h; cases h
    · rw [if_neg h1] at h; cases h

/-- An enriched dataset with one record whose delivered and read cells
are null, so its country group has delivered = 0. -/
def countryDemoDF : DF :=
  { cols := ["country_name", "dispatched_at", "delivered_at", "read_at",
             "button_clicks", "link_clicks"],
    rows := [
      [("country_name", some (.vstr "Narnia")),
       ("dispatched_at", some (.vdate 20240101)),
       ("delivered_at", none), ("read_at", none),
       ("button_clicks", none), ("link_clicks", none)]] }

/-- C1 counterexample: on `countryDemoDF` the Read Rate denominator
(delivered) is zero; the view does not raise, but the resulting cell is
`"nan%"`, which is neither `"0%"` nor `"N/A"`. -/
theorem country_zero_division_counterexample :
    create_country_analysis_table countryDemoDF =
      .ok [{ country := .vstr "Narnia", dispatched := 1, delivered := 0,
             readCount := 0, buttonClicks := 0, linkClicks := 0,
             deliveryRate := "0.0%", readRate := "nan%" }] ∧
    "nan%" ≠ "0%" ∧ "nan%" ≠ "N/A" :=
  ⟨by rfl, by decide, by decide⟩

/-- Extractor for computed country tables, used to state witnesses. -/
def okOrCountry (x : Except String (List CountryRow)) : List CountryRow :=
  match x with
  | .ok l => l
  | .error _ => []

/-- The first row of the computed country table of `countryDemoDF`. -/
def countryDemoRow : CountryRow :=
  (okOrCountry (create_country_analysis_table countryDemoDF)).headD
    { country := .vstr "", dispatched := 0, delivered := 0, readCount := 0,
      buttonClicks := 0, linkClicks := 0, deliveryRate := "", readRate := "" }

/-- Witness for C1 (amended) at `countryDemoDF`. -/
theorem country_rates_amended_witness :
    (∃ t, create_country_analysis_table countryDemoDF = .ok t) ∧
    countryRowSpec countryDemoRow := by
  refine ⟨country_rates_amended.1 countryDemoDF (by decide) (by decide), ?_⟩
  have h := country_rates_amended.2 countryDemoDF
    (okOrCountry (create_country_analysis_table countryDemoDF)) (by rfl)
  refine h countryDemoRow ?_
  rw [show okOrCountry (create_country_analysis_table countryDemoDF) =
      [countryDemoRow] from by rfl]
  exact List.mem_singleton.mpr rfl

/-! ### Filter-request dispatch (C7) -/

/-- A fully-populated one-record enriched dataset. -/
def tabsDemoDF : DF :=
  { cols := ["campaign_name", "campaign_type", "country_name", "dispatched_at",
             "sent_at", "delivered_at", "read_at", "button_clicks",
             "link_clicks"],
    rows := [
      [("campaign_name", some (.vstr "Promo")),
       ("campaign_type", some (.vstr "Non-Commercial")),
       ("country_name", some (.vstr "United States")),
       ("dispatched_at", some (.vdate 20240101)),
       ("sent_at", some (.vstr "x")), ("delivered_at", some (.vstr "x")),
       ("read_at", some (.vstr "x")), ("button_clicks", some (.vstr "1")),
       ("link_clicks", some (.vstr "2"))]] }

/-- C7 counterexample: a filter request while the cost-analysis tab is
active returns the campaign summary of the filtered dataset, not the
cost-analysis table that the same dataset's cost view produces (and that
the claim requires). -/
theorem filter_request_tab_counterexample :
    updateOnFilterRequest (some tabsDemoDF) "cost-analysis-tab"
        none none none none =
      .ok (some (.summaryTable
        [{ campaign_name := .vstr "Promo", dispatched := 1, sent := 1,
           delivered := 1, readCount := 1, buttonClicks := 1,
           linkClicks := 1 }])) ∧
    create_cost_analysis_table tabsDemoDF =
      .ok [{ campaign_name := .vstr "Promo", deliveredMessages := 1,
             cost := "$0.04" },
           { campaign_name := .vstr "Total", deliveredMessages := 1,
             cost := "$0.04" }] ∧
    Content.summaryTable
        [{ campaign_name := .vstr "Promo", dispatched := 1, sent := 1,
           delivered := 1, readCount := 1, buttonClicks := 1,
           linkClicks := 1 }] ≠
      Content.costTable
        [{ campaign_name := .vstr "Promo", deliveredMessages := 1,
           cost := "$0.04" },
         { campaign_name := .vstr "Total", deliveredMessages := 1,
           cost := "$0.04" }] :=
  ⟨by rfl, by rfl, by decide⟩

/-- C7 (amended): for a filter request with a dataset present, the
data-table tab shows the raw table over the filtered dataset, and every
other tab — the campaign-summary, cost-analysis and country-analysis
tabs alike — shows the campaign summary over the filtered dataset. -/
theorem filter_request_dispatch_amended (df : DF)
    (fc ft : Option (List String)) (sd ed : Option Nat) (tab : String)
    (h : tab ≠ "data-table-tab") :
    updateOnFilterRequest (some df) "data-table-tab" fc ft sd ed =
      (apply_filters df fc ft sd ed).map
        (fun fd => some (.rawTable (create_data_table fd))) ∧
    updateOnFilterRequest (some df) tab fc ft sd ed =
      (apply_filters df fc ft sd ed).bind
        (fun fd => (create_summary_table fd).map
          (fun rs => some (.summaryTable rs))) := by
  constructor
  · unfold updateOnFilterRequest
    dsimp only
    cases hA : apply_filters df fc ft sd ed with
    | error e => rfl
    | ok fd =>
      dsimp only [Except.bind, Except.map]
      rw [if_pos rfl]
  · unfold updateOnFilterRequest
    dsimp only
    cases hA : apply_filters df fc ft sd ed with
    | error e => rfl
    | ok fd =>
      dsimp only [Except.bind]
      rw [if_neg h]

/-- Witness for C7 (amended) at `tabsDemoDF` with the cost-analysis tab
active. -/
theorem filter_request_dispatch_amended_witness :
    updateOnFilterRequest (some tabsDemoDF) "data-table-tab"
        none none none none =
      (apply_filters tabsDemoDF none none none none).map
        (fun fd => some (.rawTable (create_data_table fd))) ∧
    updateOnFilterRequest (some tabsDemoDF) "cost-analysis-tab"
        none none none none =
      (apply_filters tabsDemoDF none none none none).bind
        (fun fd => (create_summary_table fd).map
          (fun rs => some (.summaryTable rs))) :=
  filter_request_dispatch_amended tabsDemoDF none none none none
    "cost-analysis-tab" (by decide)

/-! ### Missing-columns handling at view time (C9) -/

/-- An active dataset lacking the `sent_at` column required by the
campaign summary. -/
def missingColsDemoDF : DF :=
  { cols := ["campaign_name", "dispatched_at", "delivered_at", "read_at",
             "button_clicks", "link_clicks"],
    rows := [
      [("campaign_name", some (.vstr "A")),
       ("dispatched_at", some (.vdate 20240101)),
       ("delivered_at", none), ("read_at", none),
       ("button_clicks", none), ("link_clicks", none)]] }

/-- C9 counterexample: a campaign-summary view request against a
dataset lacking `sent_at` does not return the claimed report — the
aggregation's error propagates uncaught out of the live branch (the
request fails), while the "Missing columns" report is produced only by
the unregistered legacy handler. -/
theorem view_missing_columns_counterexample :
    updateOnTab (some missingColsDemoDF) "campaign-summary-tab" =
      .error (missingColsMsg ["sent_at"]) ∧
    legacySummaryContent missingColsDemoDF =
      .message ("Missing columns: " ++ "sent_at") :=
  ⟨by rfl, by rfl⟩

/-- C9 (amended): when the campaign summary's required aggregation
columns are missing from the active dataset, the live view path fails
with the aggregation error naming exactly the missing columns (no
partial table, but an uncaught failure rather than a rendered report),
while the unregistered legacy handler is the path that would render the
"Missing columns" report. -/
theorem view_missing_columns_amended :
    (∀ df : DF, "campaign_name" ∈ df.cols →
      summaryAggCols.filter (fun c => !df.cols.contains c) ≠ [] →
      updateOnTab (some df) "campaign-summary-tab" =
        .error (missingColsMsg
          (summaryAggCols.filter (fun c => !df.cols.contains c)))) ∧
    (∀ df : DF, legacyRequiredCols.filter (fun c => !df.cols.contains c) ≠ [] →
      legacySummaryContent df =
        .message ("Missing columns: " ++ String.intercalate ", "
          (legacyRequiredCols.filter (fun c => !df.cols.contains c)))) := by
  constructor
  · intro df h1 hmiss
    unfold updateOnTab
    dsimp only
    rw [if_neg (by decide : ¬("campaign-summary-tab" = "data-table-tab")),
      if_pos rfl]
    unfold create_summary_table
    rw [if_pos h1, if_neg hmiss]
    rfl
  · intro df hmiss
    unfold legacySummaryContent
    rw [if_neg hmiss]

/-- Witness for C9 (amended) at `missingColsDemoDF`. -/
theorem view_missing_columns_amended_witness :
    updateOnTab (some missingColsDemoDF) "campaign-summary-tab" =
      .error (missingColsMsg
        (summaryAggCols.filter (fun c => !missingColsDemoDF.cols.contains c))) ∧
    legacySummaryContent missingColsDemoDF =
      .message ("Missing columns: " ++ String.intercalate ", "
        (legacyRequiredCols.filter
          (fun c => !missingColsDemoDF.cols.contains c))) :=
  ⟨view_missing_columns_amended.1 missingColsDemoDF (by decide) (by decide),
   view_missing_columns_amended.2 missingColsDemoDF (by decide)⟩

end Connectly
